import Mathlib

/-!
Verification of the endpoint-address utility module (`util-net.cc`):
a shallow embedding of `printable_address`, `resolve_address_port`, the
Windows portability shim `inet_pton`, and the resolver-context singleton
(`get_evdns_base` / `init_evdns_base`), together with theorems about them.

Machine integers are modelled as `Nat` (all quantities involved are
non-negative and small); C strings are modelled as `String` / `List Char`;
NULL pointers as `Option` or the empty list; the platform resolver
primitives (`evutil_getaddrinfo`, `getaddrinfo`, `evdns_base_new`) as
explicit oracle parameters.
-/

namespace UtilNet

/-! ### Platform constants (Linux values) -/

def AF_UNSPEC : Nat := 0
def AF_LOCAL : Nat := 1
def AF_INET : Nat := 2
def AF_INET6 : Nat := 10
def SOCK_STREAM : Nat := 1

/-- `sizeof(struct sockaddr_in)` on the reference platform. -/
def sizeof_sockaddr_in : Nat := 16
/-- `sizeof(struct sockaddr_in6)` on the reference platform. -/
def sizeof_sockaddr_in6 : Nat := 28

/-- libevent resolver hint flags (`event2/util.h` fallback values). -/
def EVUTIL_AI_PASSIVE : Nat := 0x1000
def EVUTIL_AI_NUMERICHOST : Nat := 0x4000
def EVUTIL_AI_NUMERICSERV : Nat := 0x8000
def EVUTIL_AI_ADDRCONFIG : Nat := 0x40000
/-- `EVUTIL_EAI_SYSTEM` (= `EAI_SYSTEM` on the reference platform). -/
def EVUTIL_EAI_SYSTEM : Int := -11

/-! ### Socket-address model

A `struct sockaddr` blob, viewed through the cast the code performs for
its declared family: `addrBytes` are the bytes of the address field
(`sin_addr`, 4 bytes, for a `sockaddr_in`; `sin6_addr`, 16 bytes, for a
`sockaddr_in6`); `portHi`/`portLo` are the two bytes of the 16-bit port
field as they sit in memory, i.e. in network byte order; `sun_path` is
the path field of a `sockaddr_un`. -/

structure SockAddr where
  sa_family : Nat
  addrBytes : List Nat
  portHi : Nat
  portLo : Nat
  sun_path : String
deriving Repr, DecidableEq

/-- `ntohs` applied to the in-memory port field: network byte order is
big-endian, so the host-order value is `hi * 256 + lo`. -/
def ntohs (hi lo : Nat) : Nat := hi * 256 + lo

/-- Platform `inet_ntop`, modelled per its POSIX contract as the code
uses it: for `AF_INET` it renders the first four bytes at the source
pointer as a decimal dotted quad (never failing when four bytes are
present); the code under verification never invokes it with any other
family argument, and on other input it is modelled as failing (NULL). -/
def inet_ntop (af : Nat) (src : List Nat) : Option String :=
  if af = AF_INET then
    match src with
    | a :: b :: c :: d :: _ =>
        some (Nat.repr a ++ "." ++ Nat.repr b ++ "." ++ Nat.repr c ++ "." ++ Nat.repr d)
    | _ => none
  else none

/-- Result of `printable_address`: either the returned heap string, or
the `log_assert` fired (aborting the process). -/
inductive FormatResult
  | ok (s : String)
  | assertFailed
deriving Repr, DecidableEq

/-- The generic fallback rendering `<addr family N>`. -/
def addrFamilyFallback (family : Nat) : String :=
  "<addr family " ++ Nat.repr family ++ ">"

/-- Shallow embedding of `printable_address(addr, addrlen)`.

Transcribed from the source: dispatch on `sa_family`; for `AF_INET`,
assert `addrlen >= sizeof(struct sockaddr_in)`, convert `sin_addr` with
`inet_ntop(AF_INET, ...)`, and on success return `"TEXT:PORT"` with the
port through `ntohs`; for `AF_INET6`, assert against
`sizeof(struct sockaddr_in6)` and convert `sin6_addr` — the source
passes `AF_INET` as the family argument to `inet_ntop` in this branch
(line 158), so only the first four bytes of the 16-byte address are
rendered, as a dotted quad — and on success return `"[TEXT]:PORT"`;
for `AF_LOCAL`, return the `sun_path`; otherwise (or when a conversion
failed and broke out of the switch) return `<addr family N>`. -/
def printable_address (addr : SockAddr) (addrlen : Nat) : FormatResult :=
  if addr.sa_family = AF_INET then
    if addrlen < sizeof_sockaddr_in then .assertFailed
    else
      match inet_ntop AF_INET addr.addrBytes with
      | some abuf => .ok (abuf ++ ":" ++ Nat.repr (ntohs addr.portHi addr.portLo))
      | none => .ok (addrFamilyFallback addr.sa_family)
  else if addr.sa_family = AF_INET6 then
    if addrlen < sizeof_sockaddr_in6 then .assertFailed
    else
      match inet_ntop AF_INET addr.addrBytes with
      | some abuf => .ok ("[" ++ abuf ++ "]:" ++ Nat.repr (ntohs addr.portHi addr.portLo))
      | none => .ok (addrFamilyFallback addr.sa_family)
  else if addr.sa_family = AF_LOCAL then
    .ok addr.sun_path
  else
    .ok (addrFamilyFallback addr.sa_family)

/-! ### Endpoint parsing: `resolve_address_port` -/

/-- One `struct evutil_addrinfo` node, reduced to the raw socket-address
bytes it carries (`ai_addr`, with `ai_addrlen = ai_addr.length`). -/
structure AddrInfo where
  ai_addr : List Nat
deriving Repr, DecidableEq

/-- The hints structure handed to `evutil_getaddrinfo` (the fields the
code sets; everything else is zeroed by `memset`). -/
structure Hints where
  ai_family : Nat
  ai_socktype : Nat
  ai_flags : Nat
deriving Repr, DecidableEq

/-- What a call to `evutil_getaddrinfo` produces: the return code, the
result list stored through the out-parameter (the empty list models a
NULL pointer — an empty linked list is NULL), and the value of `errno`
right after the call. -/
structure ResolverReply where
  code : Int
  ai : List AddrInfo
  errno : Nat
deriving Repr, DecidableEq

/-- The log messages `resolve_address_port` can emit, kept structured so
that the severity and the information each carries are part of the model:
`debugPortRequired a` is `log_debug("error in address %s: port required", a)`;
`warnSystem a code errno` is the `EVUTIL_EAI_SYSTEM` warning, which
includes the OS `strerror(errno)` text; `warnResolver a code` is the
warning that carries only `evutil_gai_strerror(code)`;
`warnResolutionFailed a` is `log_warn("address resolution failed for %s", a)`. -/
inductive LogEvent
  | debugPortRequired (address : List Char)
  | warnSystem (address : List Char) (code : Int) (errno : Nat)
  | warnResolver (address : List Char) (code : Int)
  | warnResolutionFailed (address : List Char)
deriving Repr, DecidableEq

/-- Index of the first occurrence of `c` (C `strchr`). -/
def strchrIdx : List Char → Char → Option Nat
  | [], _ => none
  | x :: rest, c => if x = c then some 0 else (strchrIdx rest c).map (· + 1)

/-- The hints `resolve_address_port` builds: family unspecified, stream
socket type, `EVUTIL_AI_ADDRCONFIG | EVUTIL_AI_NUMERICSERV`, plus
`EVUTIL_AI_PASSIVE` when `passive`, plus `EVUTIL_AI_NUMERICHOST` when
`nodns`. -/
def mkHints (nodns passive : Bool) : Hints :=
  { ai_family := AF_UNSPEC
    ai_socktype := SOCK_STREAM
    ai_flags :=
      ((EVUTIL_AI_ADDRCONFIG ||| EVUTIL_AI_NUMERICSERV)
        ||| (if passive then EVUTIL_AI_PASSIVE else 0))
        ||| (if nodns then EVUTIL_AI_NUMERICHOST else 0) }

/-- Everything observable about one `resolve_address_port` call:
the returned list (`[]` models returning NULL), the log events emitted,
the `evutil_getaddrinfo` invocation if one was made (host, port string,
hints), the caller-owned input buffer as it stands when the function
returns, whether the `xstrdup`ed private copy was `free`d before
returning, and whether a non-NULL partial result list was released on
the error path. -/
structure ResolveOutcome where
  result : List AddrInfo
  logs : List LogEvent
  call : Option (List Char × List Char × Hints)
  finalInput : List Char
  dupFreed : Bool
  aiFreedOnError : Bool
deriving Repr, DecidableEq

/-- The tail of `resolve_address_port` from the `memset` of the hints
onward: build hints, invoke the resolver oracle on (host, portstr),
`free` the duplicate, then handle the three outcomes (non-zero code;
zero code but NULL list; success). -/
def resolveCore (resolver : List Char → List Char → Hints → ResolverReply)
    (address host portstr : List Char) (nodns passive : Bool) : ResolveOutcome :=
  if (resolver host portstr (mkHints nodns passive)).code ≠ 0 then
    { result := []
      logs := [if (resolver host portstr (mkHints nodns passive)).code = EVUTIL_EAI_SYSTEM then
                 .warnSystem address (resolver host portstr (mkHints nodns passive)).code
                   (resolver host portstr (mkHints nodns passive)).errno
               else
                 .warnResolver address (resolver host portstr (mkHints nodns passive)).code]
      call := some (host, portstr, mkHints nodns passive)
      finalInput := address
      dupFreed := true
      aiFreedOnError := !(resolver host portstr (mkHints nodns passive)).ai.isEmpty }
  else if (resolver host portstr (mkHints nodns passive)).ai.isEmpty then
    { result := []
      logs := [.warnResolutionFailed address]
      call := some (host, portstr, mkHints nodns passive)
      finalInput := address
      dupFreed := true
      aiFreedOnError := false }
  else
    { result := (resolver host portstr (mkHints nodns passive)).ai
      logs := []
      call := some (host, portstr, mkHints nodns passive)
      finalInput := address
      dupFreed := true
      aiFreedOnError := false }

/-- Shallow embedding of
`resolve_address_port(address, nodns, passive, default_port)`.

Transcribed from the source: `a = xstrdup(address)` is the private
duplicate; `strchr(a, ':')` finds the first colon; when present,
`portstr = cp + 1` and `*cp = '\0'` truncates the duplicate (modelled as
`a.take i` / `a.drop (i+1)` — the caller's buffer is untouched); when
absent, `default_port` is used if supplied, and otherwise the function
logs "port required" at debug severity, frees the duplicate and returns
NULL. The resolver oracle stands for `evutil_getaddrinfo`. -/
def resolve_address_port (resolver : List Char → List Char → Hints → ResolverReply)
    (address : List Char) (nodns passive : Bool)
    (default_port : Option (List Char)) : ResolveOutcome :=
  let a := address
  match strchrIdx a ':' with
  | some i => resolveCore resolver address (a.take i) (a.drop (i + 1)) nodns passive
  | none =>
      match default_port with
      | some dp => resolveCore resolver address a dp nodns passive
      | none =>
          { result := []
            logs := [.debugPortRequired address]
            call := none
            finalInput := address
            dupFreed := true
            aiFreedOnError := false }

/-! ### Windows portability shim: `inet_pton` -/

/-- What the platform `getaddrinfo` returns for the shim's query
(literal text, hints whose only set field is `ai_family`): a return
code and the candidate list (`[]` models a NULL result). -/
structure PtonReply where
  code : Int
  res : List AddrInfo
deriving Repr, DecidableEq

/-- `memcpy(dst, src, src.length)` on a byte buffer: the first
`src.length` bytes are overwritten, the rest of `dst` is preserved. -/
def memcpyInto (dst src : List Nat) : List Nat :=
  src ++ dst.drop src.length

/-- The shim's `while (res)` loop: `memcpy` each candidate's
`ai_addr` bytes into the output buffer in list order. -/
def inet_pton_loop (dst : List Nat) : List AddrInfo → List Nat
  | [] => dst
  | r :: rest => inet_pton_loop (memcpyInto dst r.ai_addr) rest

/-- Result of the `inet_pton` shim: the return value, the output buffer
after the call, and whether the debug message
(`"couldn't resolve host %s"`) was logged. -/
structure PtonOutcome where
  ret : Int
  dst : List Nat
  loggedDebug : Bool
deriving Repr, DecidableEq

/-- Shallow embedding of the Windows `inet_pton(af, src, dst)` shim.

Transcribed from the source: zero the hints, set `ai_family = af`, call
`getaddrinfo(src, NULL, &hints, &res)` (the `gai` oracle, applied to the
literal text and the requested family); on failure log at debug level
and return -1 leaving the buffer untouched; otherwise walk the whole
result list, `memcpy`ing every candidate's address bytes into `dst`
(so the last candidate wins), free the list and return 0. -/
def inet_pton (gai : String → Nat → PtonReply) (af : Nat) (src : String)
    (dst0 : List Nat) : PtonOutcome :=
  if (gai src af).code ≠ 0 then
    { ret := -1, dst := dst0, loggedDebug := true }
  else
    { ret := 0, dst := inet_pton_loop dst0 (gai src af).res, loggedDebug := false }

/-! ### Resolver-context singleton -/

/-- An `evdns_base` handle, abstracted to its pointer value. -/
abbrev EvdnsBase := Nat

/-- Initial value of the file-scope `static struct evdns_base
*the_evdns_base = NULL`. -/
def the_evdns_base_init : Option EvdnsBase := none

/-- `get_evdns_base()`: returns the stored handle, given the current
value of the singleton. -/
def get_evdns_base (the_evdns_base : Option EvdnsBase) : Option EvdnsBase :=
  the_evdns_base

/-- `init_evdns_base(base)`: stores the result of
`evdns_base_new(base, 1)` (the oracle value `newBase`; `none` models a
NULL construction failure) into the singleton unconditionally, and
returns -1 when that result is NULL, 0 otherwise. The pair is
(new singleton state, return value). -/
def init_evdns_base (newBase : Option EvdnsBase)
    (_the_evdns_base : Option EvdnsBase) : Option EvdnsBase × Int :=
  (newBase, if newBase = none then -1 else 0)

/-- The singleton state after a sequence of `init_evdns_base` calls
whose `evdns_base_new` results are `results`, starting from the
initial NULL state. -/
def runInits (results : List (Option EvdnsBase)) : Option EvdnsBase :=
  results.foldl (fun s r => (init_evdns_base r s).1) the_evdns_base_init

/-! ### Helper lemmas -/

theorem strchrIdx_eq_none_of_not_mem (l : List Char) (c : Char) (h : c ∉ l) :
    strchrIdx l c = none := by
  induction l with
  | nil => rfl
  | cons x rest ih =>
    simp only [List.mem_cons, not_or] at h
    simp [strchrIdx, if_neg (Ne.symm h.1), ih h.2]

/-- Every branch of `resolveCore` records the same resolver invocation:
host, port string, and the hints built by `mkHints`. -/
theorem resolveCore_call (resolver : List Char → List Char → Hints → ResolverReply)
    (address host portstr : List Char) (nodns passive : Bool) :
    (resolveCore resolver address host portstr nodns passive).call
      = some (host, portstr, mkHints nodns passive) := by
  unfold resolveCore
  split
  · rfl
  · split <;> rfl

/-- If a `resolve_address_port` run recorded a resolver invocation, the
hints were built by `mkHints` and the whole run factors through
`resolveCore` on the recorded host and port string. -/
theorem resolve_address_port_call_inv
    (resolver : List Char → List Char → Hints → ResolverReply)
    (address : List Char) (nodns passive : Bool) (dp : Option (List Char))
    (host portstr : List Char) (hints : Hints)
    (hcall : (resolve_address_port resolver address nodns passive dp).call
              = some (host, portstr, hints)) :
    hints = mkHints nodns passive
    ∧ resolve_address_port resolver address nodns passive dp
        = resolveCore resolver address host portstr nodns passive := by
  cases hidx : strchrIdx address ':' with
  | some i =>
    simp only [resolve_address_port, hidx] at hcall ⊢
    rw [resolveCore_call] at hcall
    simp only [Option.some.injEq, Prod.mk.injEq] at hcall
    obtain ⟨hh, hp, hhints⟩ := hcall
    subst hh; subst hp; subst hhints
    exact ⟨rfl, rfl⟩
  | none =>
    cases dp with
    | some dpv =>
      simp only [resolve_address_port, hidx] at hcall ⊢
      rw [resolveCore_call] at hcall
      simp only [Option.some.injEq, Prod.mk.injEq] at hcall
      obtain ⟨hh, hp, hhints⟩ := hcall
      subst hh; subst hp; subst hhints
      exact ⟨rfl, rfl⟩
    | none =>
      simp only [resolve_address_port, hidx] at hcall
      exact Option.noConfusion hcall

/-- Error handling of the resolver-call tail: non-zero result code gives
a NULL return, the distinguishing warning, and release of any partial
list; zero code with a NULL list gives a NULL return and the
"address resolution failed" warning. -/
theorem resolveCore_failure
    (resolver : List Char → List Char → Hints → ResolverReply)
    (address host portstr : List Char) (nodns passive : Bool) :
    (((resolver host portstr (mkHints nodns passive)).code ≠ 0 →
        (resolveCore resolver address host portstr nodns passive).result = []
        ∧ (resolveCore resolver address host portstr nodns passive).logs
            = [if (resolver host portstr (mkHints nodns passive)).code = EVUTIL_EAI_SYSTEM then
                 .warnSystem address (resolver host portstr (mkHints nodns passive)).code
                   (resolver host portstr (mkHints nodns passive)).errno
               else
                 .warnResolver address (resolver host portstr (mkHints nodns passive)).code]
        ∧ (resolveCore resolver address host portstr nodns passive).aiFreedOnError
            = !(resolver host portstr (mkHints nodns passive)).ai.isEmpty)
     ∧ ((resolver host portstr (mkHints nodns passive)).code = 0 →
        (resolver host portstr (mkHints nodns passive)).ai = [] →
        (resolveCore resolver address host portstr nodns passive).result = []
        ∧ (resolveCore resolver address host portstr nodns passive).logs
            = [.warnResolutionFailed address])) := by
  constructor
  · intro hc
    unfold resolveCore
    rw [if_pos hc]
    exact ⟨rfl, rfl, rfl⟩
  · intro hc hai
    unfold resolveCore
    rw [if_neg (by simp [hc]), if_pos (by simp [hai])]
    exact ⟨rfl, rfl⟩

/-- The shim's copy loop on a list ending in `l` leaves the buffer with
`l`'s bytes `memcpy`ed over whatever the earlier candidates produced. -/
theorem inet_pton_loop_append (init : List AddrInfo) (l : AddrInfo) (dst : List Nat) :
    inet_pton_loop dst (init ++ [l]) = memcpyInto (inet_pton_loop dst init) l.ai_addr := by
  induction init generalizing dst with
  | nil => rfl
  | cons r rest ih =>
    simp only [List.cons_append, inet_pton_loop]
    exact ih _

/-- A concrete failing resolver oracle (non-zero result code 5, non-NULL
partial list, errno 9) used to witness the error-path theorems. -/
def resolverFail : List Char → List Char → Hints → ResolverReply :=
  fun _ _ _ => ⟨5, [⟨[1, 2, 3, 4]⟩], 9⟩

/-- A concrete `getaddrinfo` oracle returning two candidates, used to
witness the shim's last-candidate-wins behavior. -/
def gaiTwoCandidates : String → Nat → PtonReply :=
  fun _ _ => ⟨0, [⟨[9, 9, 9, 9, 9]⟩, ⟨[1, 2, 3, 4]⟩]⟩

/-! ### Claim theorems -/

/-- C1 (evaluation at the failing input): on the IPv6 socket address
`::1` with port field encoding 8080 (bytes 31, 144) and a sufficient
address length, `printable_address` returns `"[0.0.0.0]:8080"` — the
first four bytes of the 16-byte address rendered as an IPv4 dotted quad
— and not the claimed `"[::1]:8080"`: the source passes `AF_INET`
instead of `AF_INET6` to `inet_ntop` in the IPv6 branch. -/
theorem printable_address_inet6_renders_first_four_bytes :
    printable_address
        ⟨AF_INET6, [0, 0, 0, 0, 0, 0, 0, 0, 0, 0, 0, 0, 0, 0, 0, 1], 31, 144, ""⟩
        sizeof_sockaddr_in6
      = .ok "[0.0.0.0]:8080"
    ∧ ("[0.0.0.0]:8080" : String) ≠ "[::1]:8080" := by
  constructor
  · decide
  · decide

/-- C2: a successfully converted IPv4 socket address is rendered as its
dotted-quad text, `":"`, and the port field converted to host byte order
(`ntohs`), provided the address-structure length is at least the IPv4
structure size. -/
theorem printable_address_inet4_format
    (a b c d : Nat) (rest : List Nat) (hi lo : Nat) (p : String) (len : Nat)
    (hlen : sizeof_sockaddr_in ≤ len) :
    printable_address ⟨AF_INET, a :: b :: c :: d :: rest, hi, lo, p⟩ len
      = .ok (Nat.repr a ++ "." ++ Nat.repr b ++ "." ++ Nat.repr c ++ "." ++ Nat.repr d
             ++ ":" ++ Nat.repr (ntohs hi lo)) := by
  unfold printable_address
  rw [if_pos rfl, if_neg (Nat.not_lt.mpr hlen)]
  rfl

/-- C2 witness: the IPv4 address 1.2.3.4 with port field encoding 80
formats to exactly `"1.2.3.4:80"`. -/
theorem printable_address_inet4_format_witness :
    sizeof_sockaddr_in ≤ 16
    ∧ printable_address ⟨AF_INET, [1, 2, 3, 4], 0, 80, ""⟩ 16 = .ok "1.2.3.4:80" :=
  ⟨by decide, (printable_address_inet4_format 1 2 3 4 [] 0 80 "" 16 (by decide)).trans
    (by decide)⟩

/-- C3: on an input containing no `':'` and with no default port,
`resolve_address_port` logs the "port required" message at debug
severity, makes no resolver call, frees its private duplicate, leaves
the caller's buffer unchanged, and returns NULL. -/
theorem resolve_address_port_no_colon_no_default
    (resolver : List Char → List Char → Hints → ResolverReply)
    (address : List Char) (nodns passive : Bool)
    (hnc : ':' ∉ address) :
    resolve_address_port resolver address nodns passive none
      = { result := [], logs := [.debugPortRequired address], call := none,
          finalInput := address, dupFreed := true, aiFreedOnError := false } := by
  simp only [resolve_address_port, strchrIdx_eq_none_of_not_mem address ':' hnc]

/-- C3 witness: the colonless input `"examplehost"` with no default port
fails with exactly the port-required debug log, no resolver call and a
NULL result. -/
theorem resolve_address_port_no_colon_no_default_witness :
    (':' ∉ "examplehost".toList)
    ∧ resolve_address_port (fun _ _ _ => ⟨0, [⟨[1, 2, 3, 4]⟩], 0⟩)
        "examplehost".toList false false none
      = { result := [], logs := [.debugPortRequired "examplehost".toList], call := none,
          finalInput := "examplehost".toList, dupFreed := true, aiFreedOnError := false } :=
  ⟨by decide,
   resolve_address_port_no_colon_no_default _ _ false false (by decide)⟩

/-- C4: whenever `resolve_address_port` invoked the resolver and the
result code is non-zero, it returns NULL, logs the system-error warning
(with errno) exactly when the code is `EVUTIL_EAI_SYSTEM` and the
resolver-error warning otherwise, and releases the partial result list
exactly when one was produced; when the code is zero but the list is
NULL it returns NULL and logs "address resolution failed". All failures
surface only as the NULL return. -/
theorem resolve_address_port_failure_paths
    (resolver : List Char → List Char → Hints → ResolverReply)
    (address : List Char) (nodns passive : Bool) (dp : Option (List Char))
    (host portstr : List Char) (hints : Hints)
    (hcall : (resolve_address_port resolver address nodns passive dp).call
              = some (host, portstr, hints)) :
    ((resolver host portstr hints).code ≠ 0 →
       (resolve_address_port resolver address nodns passive dp).result = []
       ∧ (resolve_address_port resolver address nodns passive dp).logs
           = [if (resolver host portstr hints).code = EVUTIL_EAI_SYSTEM then
                .warnSystem address (resolver host portstr hints).code
                  (resolver host portstr hints).errno
              else
                .warnResolver address (resolver host portstr hints).code]
       ∧ (resolve_address_port resolver address nodns passive dp).aiFreedOnError
           = !(resolver host portstr hints).ai.isEmpty)
    ∧ ((resolver host portstr hints).code = 0 →
       (resolver host portstr hints).ai = [] →
       (resolve_address_port resolver address nodns passive dp).result = []
       ∧ (resolve_address_port resolver address nodns passive dp).logs
           = [.warnResolutionFailed address]) := by
  obtain ⟨hhints, heq⟩ :=
    resolve_address_port_call_inv resolver address nodns passive dp host portstr hints hcall
  rw [heq, hhints]
  exact resolveCore_failure resolver address host portstr nodns passive

/-- C4 witness: with a resolver returning code 5 and a partial list,
resolving `"h:1"` returns NULL, logs the resolver-error warning, and
releases the partial list. -/
theorem resolve_address_port_failure_paths_witness :
    (resolverFail "h".toList "1".toList (mkHints false false)).code ≠ 0
    ∧ (resolve_address_port resolverFail "h:1".toList false false none).result = []
    ∧ (resolve_address_port resolverFail "h:1".toList false false none).logs
        = [.warnResolver "h:1".toList 5]
    ∧ (resolve_address_port resolverFail "h:1".toList false false none).aiFreedOnError
        = true := by
  have h := (resolve_address_port_failure_paths resolverFail "h:1".toList false false none
      "h".toList "1".toList (mkHints false false) (by decide)).1 (by decide)
  exact ⟨by decide, h.1, h.2.1.trans (by decide), h.2.2.trans (by decide)⟩

/-- C5: `printable_address` always returns some string when the
length assertions are met (it never fails outright), and whenever the
family is not the local one and any attempted IPv4/IPv6 numeric
conversion fails — in particular for every unrecognized family — it
returns exactly the fallback `<addr family N>` with the decimal numeric
family identifier. -/
theorem printable_address_total_and_fallback
    (f : Nat) (bytes : List Nat) (hi lo : Nat) (p : String) (len : Nat)
    (h4 : f = AF_INET → sizeof_sockaddr_in ≤ len)
    (h6 : f = AF_INET6 → sizeof_sockaddr_in6 ≤ len) :
    (∃ s, printable_address ⟨f, bytes, hi, lo, p⟩ len = .ok s)
    ∧ (f ≠ AF_LOCAL →
        ((f = AF_INET ∨ f = AF_INET6) → inet_ntop AF_INET bytes = none) →
        printable_address ⟨f, bytes, hi, lo, p⟩ len = .ok (addrFamilyFallback f)) := by
  by_cases hf4 : f = AF_INET
  · subst hf4
    constructor
    · unfold printable_address
      rw [if_pos rfl, if_neg (Nat.not_lt.mpr (h4 rfl))]
      cases hn : inet_ntop AF_INET bytes with
      | some s => exact ⟨_, rfl⟩
      | none => exact ⟨_, rfl⟩
    · intro _ hconv
      unfold printable_address
      rw [if_pos rfl, if_neg (Nat.not_lt.mpr (h4 rfl)), hconv (Or.inl rfl)]
  · by_cases hf6 : f = AF_INET6
    · subst hf6
      constructor
      · unfold printable_address
        rw [if_neg (show AF_INET6 ≠ AF_INET by decide), if_pos rfl,
            if_neg (Nat.not_lt.mpr (h6 rfl))]
        cases hn : inet_ntop AF_INET bytes with
        | some s => exact ⟨_, rfl⟩
        | none => exact ⟨_, rfl⟩
      · intro _ hconv
        unfold printable_address
        rw [if_neg (show AF_INET6 ≠ AF_INET by decide), if_pos rfl,
            if_neg (Nat.not_lt.mpr (h6 rfl)), hconv (Or.inr rfl)]
    · by_cases hfl : f = AF_LOCAL
      · subst hfl
        constructor
        · exact ⟨_, rfl⟩
        · intro hc
          exact absurd rfl hc
      · constructor
        · unfold printable_address
          rw [if_neg hf4, if_neg hf6, if_neg hfl]
          exact ⟨_, rfl⟩
        · intro _ _
          unfold printable_address
          rw [if_neg hf4, if_neg hf6, if_neg hfl]

/-- C5 witness: family 99 formats to exactly `"<addr family 99>"`. -/
theorem printable_address_total_and_fallback_witness :
    (99 ≠ AF_LOCAL)
    ∧ printable_address ⟨99, [1, 2, 3, 4], 0, 0, ""⟩ 0 = .ok "<addr family 99>" := by
  have h := (printable_address_total_and_fallback 99 [1, 2, 3, 4] 0 0 "" 0
      (by decide) (by decide)).2 (by decide) (by decide)
  exact ⟨by decide, h.trans (by decide)⟩

/-- C6: every resolver invocation made by `resolve_address_port` carries
hints with family `AF_UNSPEC`, socket type `SOCK_STREAM`, and flags
equal to `EVUTIL_AI_ADDRCONFIG | EVUTIL_AI_NUMERICSERV`, with the
passive flag (bit 12) set iff `passive` and the numeric-host flag
(bit 14) set iff `nodns`; the numeric-service (bit 15) and
address-config (bit 18) flags are always set. -/
theorem resolve_address_port_hints_spec
    (resolver : List Char → List Char → Hints → ResolverReply)
    (address : List Char) (nodns passive : Bool) (dp : Option (List Char))
    (host portstr : List Char) (hints : Hints)
    (hcall : (resolve_address_port resolver address nodns passive dp).call
              = some (host, portstr, hints)) :
    hints.ai_family = AF_UNSPEC
    ∧ hints.ai_socktype = SOCK_STREAM
    ∧ hints.ai_flags = ((EVUTIL_AI_ADDRCONFIG ||| EVUTIL_AI_NUMERICSERV)
        ||| (if passive then EVUTIL_AI_PASSIVE else 0))
        ||| (if nodns then EVUTIL_AI_NUMERICHOST else 0)
    ∧ (hints.ai_flags.testBit 12 ↔ passive = true)
    ∧ (hints.ai_flags.testBit 14 ↔ nodns = true)
    ∧ hints.ai_flags.testBit 15 = true
    ∧ hints.ai_flags.testBit 18 = true := by
  obtain ⟨hhints, -⟩ :=
    resolve_address_port_call_inv resolver address nodns passive dp host portstr hints hcall
  subst hhints
  refine ⟨rfl, rfl, rfl, ?_, ?_, ?_, ?_⟩ <;>
    cases nodns <;> cases passive <;> decide

/-- C6 witness: resolving `"h:1"` with `nodns` and `passive` both set
invokes the resolver with hints carrying both optional flags. -/
theorem resolve_address_port_hints_spec_witness :
    ((resolve_address_port resolverFail "h:1".toList true true none).call
      = some ("h".toList, "1".toList, mkHints true true))
    ∧ (mkHints true true).ai_family = AF_UNSPEC
    ∧ (mkHints true true).ai_socktype = SOCK_STREAM
    ∧ (mkHints true true).ai_flags.testBit 12 = true
    ∧ (mkHints true true).ai_flags.testBit 14 = true := by
  have h := resolve_address_port_hints_spec resolverFail "h:1".toList true true none
      "h".toList "1".toList (mkHints true true) (by decide)
  exact ⟨by decide, h.1, h.2.1, by decide, by decide⟩

/-- C7: when the platform resolver parses the literal (code 0) and
returns a non-empty candidate list, the `inet_pton` shim returns 0 and
the output buffer holds the raw bytes of the last candidate, written
over whatever the earlier candidates left there; when the resolver
fails, the shim logs at debug level, returns -1 and leaves the buffer
untouched. -/
theorem inet_pton_last_candidate_wins (gai : String → Nat → PtonReply)
    (af : Nat) (src : String) (dst0 : List Nat) :
    (∀ init lastAi, (gai src af).code = 0 → (gai src af).res = init ++ [lastAi] →
       (inet_pton gai af src dst0).ret = 0
       ∧ (inet_pton gai af src dst0).dst
           = lastAi.ai_addr ++ (inet_pton_loop dst0 init).drop lastAi.ai_addr.length)
    ∧ ((gai src af).code ≠ 0 →
       (inet_pton gai af src dst0).ret = -1
       ∧ (inet_pton gai af src dst0).dst = dst0
       ∧ (inet_pton gai af src dst0).loggedDebug = true) := by
  constructor
  · intro init lastAi hcode hres
    unfold inet_pton
    rw [if_neg (by simp [hcode])]
    refine ⟨rfl, ?_⟩
    simp only [hres, inet_pton_loop_append, memcpyInto]
  · intro hcode
    unfold inet_pton
    rw [if_pos hcode]
    exact ⟨rfl, rfl, rfl⟩

/-- C7 witness: with two candidates (a five-byte one then `1.2.3.4`),
the shim succeeds and the buffer starts with the last candidate's bytes,
the residue of the earlier write surviving beyond them. -/
theorem inet_pton_last_candidate_wins_witness :
    ((gaiTwoCandidates "10.0.0.1" AF_INET).code = 0
      ∧ (gaiTwoCandidates "10.0.0.1" AF_INET).res = [⟨[9, 9, 9, 9, 9]⟩] ++ [⟨[1, 2, 3, 4]⟩]
      ∧ (inet_pton gaiTwoCandidates AF_INET "10.0.0.1" [0, 0, 0, 0, 0, 0]).ret = 0
      ∧ (inet_pton gaiTwoCandidates AF_INET "10.0.0.1" [0, 0, 0, 0, 0, 0]).dst
          = [1, 2, 3, 4, 9, 0]) := by
  have h := (inet_pton_last_candidate_wins gaiTwoCandidates AF_INET "10.0.0.1"
      [0, 0, 0, 0, 0, 0]).1 [⟨[9, 9, 9, 9, 9]⟩] ⟨[1, 2, 3, 4]⟩ (by decide) (by decide)
  exact ⟨by decide, by decide, h.1, h.2.trans (by decide)⟩

/-- C8: before any initialization the accessor returns the NULL handle
(it is a pure read of the singleton), and `init_evdns_base` returns -1
exactly when `evdns_base_new` yields NULL and 0 exactly when it yields a
handle. -/
theorem evdns_base_accessor_and_init_status :
    get_evdns_base the_evdns_base_init = none
    ∧ ∀ (r s : Option EvdnsBase),
        ((init_evdns_base r s).2 = -1 ↔ r = none)
        ∧ ((init_evdns_base r s).2 = 0 ↔ r ≠ none) := by
  refine ⟨rfl, fun r s => ?_⟩
  cases r <;> simp [init_evdns_base]

/-- C9: `resolve_address_port` leaves the caller-owned input buffer
unchanged on every path — the colon split acts only on the private
duplicate — and the duplicate is freed before every return. -/
theorem resolve_address_port_input_preserved
    (resolver : List Char → List Char → Hints → ResolverReply)
    (address : List Char) (nodns passive : Bool) (dp : Option (List Char)) :
    (resolve_address_port resolver address nodns passive dp).finalInput = address
    ∧ (resolve_address_port resolver address nodns passive dp).dupFreed = true := by
  have hcore : ∀ host portstr,
      (resolveCore resolver address host portstr nodns passive).finalInput = address
      ∧ (resolveCore resolver address host portstr nodns passive).dupFreed = true := by
    intro host portstr
    unfold resolveCore
    split
    · exact ⟨rfl, rfl⟩
    · split <;> exact ⟨rfl, rfl⟩
  cases hidx : strchrIdx address ':' with
  | some i => simpa only [resolve_address_port, hidx] using hcore _ _
  | none =>
    cases dp with
    | some dpv => simpa only [resolve_address_port, hidx] using hcore _ _
    | none => simp [resolve_address_port, hidx]

/-- C10: `init_evdns_base` overwrites the singleton unconditionally with
whatever `evdns_base_new` produced, so after any sequence of calls
`get_evdns_base` returns exactly the most recent construction result,
and NULL when no call was ever made. -/
theorem evdns_base_last_init_wins :
    (∀ (r s : Option EvdnsBase), (init_evdns_base r s).1 = r)
    ∧ get_evdns_base (runInits []) = none
    ∧ ∀ (results : List (Option EvdnsBase)) (lastR : Option EvdnsBase),
        get_evdns_base (runInits (results ++ [lastR])) = lastR := by
  refine ⟨fun r s => rfl, rfl, fun results lastR => ?_⟩
  show (results ++ [lastR]).foldl (fun s r => (init_evdns_base r s).1) the_evdns_base_init
        = lastR
  rw [List.foldl_append]
  rfl

end UtilNet
